import Mathlib

set_option maxRecDepth 40000

/-!
Shallow embedding of the CalculadoraCO2 calculation engine.

Source files embedded here:
  * `src/js/config.js`    — the `CONFIG` object (emission factors, carbon-credit
    constants); the DOM helpers (`populateDatalist`, `setupDistanceAutoFill`)
    are UI glue outside the verified core.
  * `src/js/calculator.js` — the `Calculator` object (`calculateEmission`,
    `calculateAllModes`, `calculateSavings`, `calculateCarbonCredits`,
    `estimateCreditPrice`).
  * `src/unnamed/part_000` (routes-data.js) — the `RoutesDB` object
    (`routes`, `_normalize`, `findDistance`).

Modelling conventions:
  * JavaScript numbers are modelled by `JSNum`: `NaN`, the two infinities, and
    finite values as exact rationals.  IEEE-754 rounding error and overflow of
    finite doubles are outside the model; the special-value propagation rules
    (NaN, ±∞, the sign rules of `*`, `/`, `+`, `-`, the comparison semantics
    where NaN compares false) are modelled exactly.
  * A JavaScript argument that may be of non-number type is modelled as
    `Option JSNum`; `none` stands for any value with `typeof v !== 'number'`.
  * `Math.round` (round half toward +∞ on finite values, identity on ±∞,
    NaN-propagating) is modelled on the rational part by `⌊q + 1/2⌋`.
  * JavaScript strings are Lean strings; `String.prototype.trim` /
    `toLowerCase` are modelled by `jsTrim` / `jsToLower` (ASCII case folding;
    every string constant in the repository is already lower case outside
    ASCII, so the model agrees with JavaScript on all data involved).
  * `Array.prototype.sort` with comparator `(a, b) => a.emission - b.emission`
    is modelled by a stable insertion sort (`sortByEmission`): an element is
    placed after every element the comparator orders strictly before it, which
    is the ECMAScript stable-sort semantics (a NaN comparator result counts as
    0, i.e. ties keep original order).
  * The `typeof CONFIG === 'undefined'` guards cannot fire in the embedding
    (the configuration object is always present), so they are dropped.
-/

/-! ## JavaScript numbers -/

inductive JSNum where
  | nan : JSNum
  | posInf : JSNum
  | negInf : JSNum
  | fin (q : ℚ) : JSNum
deriving DecidableEq

namespace JSNum

/-- `typeof x === 'number' && !isNaN(x) && isFinite(x)`: the finite values. -/
def isFinite : JSNum → Bool
  | fin _ => true
  | _ => false

/-- The rational carried by a finite value (0 for the special values). -/
def toQ : JSNum → ℚ
  | fin q => q
  | _ => 0

/-- JavaScript `x < 0` (false on NaN). -/
def ltZero : JSNum → Bool
  | negInf => true
  | fin q => decide (q < 0)
  | _ => false

/-- JavaScript `x > 0` (false on NaN). -/
def gtZero : JSNum → Bool
  | posInf => true
  | fin q => decide (0 < q)
  | _ => false

/-- JavaScript `x === 0` (false on NaN; +0 and -0 are identified). -/
def eqZero : JSNum → Bool
  | fin q => decide (q = 0)
  | _ => false

/-- JavaScript multiplication. -/
def mul : JSNum → JSNum → JSNum
  | nan, _ => nan
  | _, nan => nan
  | posInf, posInf => posInf
  | posInf, negInf => negInf
  | negInf, posInf => negInf
  | negInf, negInf => posInf
  | posInf, fin q => if q = 0 then nan else if 0 < q then posInf else negInf
  | fin q, posInf => if q = 0 then nan else if 0 < q then posInf else negInf
  | negInf, fin q => if q = 0 then nan else if 0 < q then negInf else posInf
  | fin q, negInf => if q = 0 then nan else if 0 < q then negInf else posInf
  | fin a, fin b => fin (a * b)

/-- JavaScript addition. -/
def add : JSNum → JSNum → JSNum
  | nan, _ => nan
  | _, nan => nan
  | posInf, negInf => nan
  | negInf, posInf => nan
  | posInf, _ => posInf
  | _, posInf => posInf
  | negInf, _ => negInf
  | _, negInf => negInf
  | fin a, fin b => fin (a + b)

/-- JavaScript subtraction. -/
def sub : JSNum → JSNum → JSNum
  | nan, _ => nan
  | _, nan => nan
  | posInf, posInf => nan
  | negInf, negInf => nan
  | posInf, _ => posInf
  | negInf, _ => negInf
  | fin _, posInf => negInf
  | fin _, negInf => posInf
  | fin a, fin b => fin (a - b)

/-- JavaScript division (the signed zeros are identified, so a finite value
divided by zero yields the infinity of the numerator's sign). -/
def div : JSNum → JSNum → JSNum
  | nan, _ => nan
  | _, nan => nan
  | posInf, posInf => nan
  | posInf, negInf => nan
  | negInf, posInf => nan
  | negInf, negInf => nan
  | posInf, fin q => if 0 ≤ q then posInf else negInf
  | negInf, fin q => if 0 ≤ q then negInf else posInf
  | fin _, posInf => fin 0
  | fin _, negInf => fin 0
  | fin a, fin b =>
    if b = 0 then (if a = 0 then nan else if 0 < a then posInf else negInf)
    else fin (a / b)

end JSNum

/-- `Math.round`: nearest integer, half toward +∞; NaN and the infinities pass
through unchanged. -/
def Math.round : JSNum → JSNum
  | JSNum.nan => JSNum.nan
  | JSNum.posInf => JSNum.posInf
  | JSNum.negInf => JSNum.negInf
  | JSNum.fin q => JSNum.fin ((⌊q + 1/2⌋ : ℤ) : ℚ)

/-- The `Math.round(x * 100) / 100` idiom of calculator.js (2 decimal places). -/
def round2JS (x : JSNum) : JSNum :=
  (Math.round (x.mul (JSNum.fin 100))).div (JSNum.fin 100)

/-- The `Math.round(x * 10000) / 10000` idiom of calculator.js (4 decimal places). -/
def round4JS (x : JSNum) : JSNum :=
  (Math.round (x.mul (JSNum.fin 10000))).div (JSNum.fin 10000)

/-- Rational-level half-up rounding to 2 decimal places: the value
`Math.round(q * 100) / 100` takes on a finite `q`. -/
def round2 (q : ℚ) : ℚ := ((⌊q * 100 + 1/2⌋ : ℤ) : ℚ) / 100

/-- Rational-level half-up rounding to 4 decimal places: the value
`Math.round(q * 10000) / 10000` takes on a finite `q`. -/
def round4 (q : ℚ) : ℚ := ((⌊q * 10000 + 1/2⌋ : ℤ) : ℚ) / 10000

/-! ## JavaScript strings: trim and toLowerCase -/

/-- Drop leading whitespace from a character list. -/
def trimLeftChars : List Char → List Char
  | [] => []
  | c :: cs => if c.isWhitespace then trimLeftChars cs else c :: cs

/-- `String.prototype.trim`: strip whitespace from both ends. -/
def jsTrim (s : String) : String :=
  ⟨(trimLeftChars ((trimLeftChars s.data).reverse)).reverse⟩

/-- `String.prototype.toLowerCase` (ASCII case folding suffices for every
string constant of this repository). -/
def jsToLower (s : String) : String := ⟨s.data.map Char.toLower⟩

/-! ## config.js: the CONFIG object -/

namespace CONFIG

/-- Emission factors in kg CO2 per kilometer, in the object-literal insertion
order that a `for...in` loop iterates. -/
def EMISSION_FACTORS : List (String × ℚ) :=
  [("bicicleta", 0), ("carro", 0.12), ("onibus", 0.089), ("caminhao", 0.96)]

/-- `CONFIG.CARBON_CREDIT.KG_PER_CREDIT`. -/
def KG_PER_CREDIT : ℚ := 1000

/-- `CONFIG.CARBON_CREDIT.PRICE_MIN_BRL`. -/
def PRICE_MIN_BRL : ℚ := 50

/-- `CONFIG.CARBON_CREDIT.PRICE_MAX_BRL`. -/
def PRICE_MAX_BRL : ℚ := 150

end CONFIG

/-! ## calculator.js: the Calculator object -/

namespace Calculator

/-- `CONFIG.EMISSION_FACTORS.hasOwnProperty(mode)` plus the read
`CONFIG.EMISSION_FACTORS[mode]`, as one optional lookup. -/
def factorOf (mode : String) : Option ℚ :=
  (CONFIG.EMISSION_FACTORS.find? (fun p => p.1 == mode)).map Prod.snd

/-- `Calculator.calculateEmission(distanceKm, transportMode)`:
distance × factor, rounded to 2 decimals; 0 when the distance is not a
non-negative number or the normalized mode is not in the factor table. -/
def calculateEmission (distanceKm : Option JSNum) (transportMode : String) : JSNum :=
  match distanceKm with
  | none => JSNum.fin 0
  | some d =>
    if d.ltZero then JSNum.fin 0
    else
      match factorOf (jsToLower (jsTrim transportMode)) with
      | none => JSNum.fin 0
      | some factor => round2JS (d.mul (JSNum.fin factor))

/-- One element of the array `calculateAllModes` builds. -/
structure ModeEntry where
  mode : String
  emission : JSNum
  percentageVsCar : JSNum
deriving DecidableEq

/-- One step of the stable sort: place `x` after every already-sorted element
the comparator `(a, b) => a.emission - b.emission` orders strictly before it. -/
def sortInsert (x : ModeEntry) : List ModeEntry → List ModeEntry
  | [] => [x]
  | y :: ys =>
    if (JSNum.sub y.emission x.emission).ltZero then y :: sortInsert x ys
    else x :: y :: ys

/-- `results.sort((a, b) => a.emission - b.emission)`: the ECMAScript stable
sort, as a stable insertion sort. -/
def sortByEmission : List ModeEntry → List ModeEntry
  | [] => []
  | x :: xs => sortInsert x (sortByEmission xs)

/-- `Calculator.calculateAllModes(distanceKm)`: one entry per factor-table
mode, compared against the car baseline, sorted by emission. -/
def calculateAllModes (distanceKm : Option JSNum) : List ModeEntry :=
  match distanceKm with
  | none => []
  | some d =>
    if d.ltZero then []
    else
      let carEmission0 := calculateEmission (some d) "carro"
      let carEmission := if carEmission0.eqZero then JSNum.fin 0.001 else carEmission0
      let results := CONFIG.EMISSION_FACTORS.map (fun p =>
        let emission := calculateEmission (some d) p.1
        let percentageVsCar := (emission.div carEmission).mul (JSNum.fin 100)
        { mode := p.1, emission := emission,
          percentageVsCar := round2JS percentageVsCar : ModeEntry })
      sortByEmission results

/-- The record `calculateSavings` returns. -/
structure SavingsResult where
  savedKg : JSNum
  percentage : JSNum
deriving DecidableEq

/-- `Calculator.calculateSavings(emission, baselineEmission)`: reduction in kg
(clamped at 0) and as a percentage of the baseline. -/
def calculateSavings (emission baselineEmission : Option JSNum) : SavingsResult :=
  let e := match emission with
    | none => JSNum.fin 0
    | some n => if n.ltZero then JSNum.fin 0 else n
  let b := match baselineEmission with
    | none => JSNum.fin 0
    | some n => if n.ltZero then JSNum.fin 0 else n
  let savedKg0 := b.sub e
  let savedKg := if savedKg0.ltZero then JSNum.fin 0 else savedKg0
  let percentage :=
    if b.gtZero then (savedKg.div b).mul (JSNum.fin 100) else JSNum.fin 0
  { savedKg := round2JS savedKg, percentage := round2JS percentage }

/-- `Calculator.calculateCarbonCredits(emissionKg)`: emission divided by
`KG_PER_CREDIT`, rounded to 4 decimals; 0 on invalid input. -/
def calculateCarbonCredits (emissionKg : Option JSNum) : JSNum :=
  match emissionKg with
  | none => JSNum.fin 0
  | some e =>
    if e.ltZero then JSNum.fin 0
    else round4JS (e.div (JSNum.fin CONFIG.KG_PER_CREDIT))

/-- The record `estimateCreditPrice` returns. -/
structure PriceEstimate where
  min : JSNum
  max : JSNum
  average : JSNum
deriving DecidableEq

/-- `Calculator.estimateCreditPrice(credits)`: market price range for a number
of credits, each bound rounded to 2 decimals; all-zero on invalid input. -/
def estimateCreditPrice (credits : Option JSNum) : PriceEstimate :=
  match credits with
  | none => { min := JSNum.fin 0, max := JSNum.fin 0, average := JSNum.fin 0 }
  | some c =>
    if c.ltZero then { min := JSNum.fin 0, max := JSNum.fin 0, average := JSNum.fin 0 }
    else
      let min := c.mul (JSNum.fin CONFIG.PRICE_MIN_BRL)
      let max := c.mul (JSNum.fin CONFIG.PRICE_MAX_BRL)
      let average := (min.add max).div (JSNum.fin 2)
      { min := round2JS min, max := round2JS max, average := round2JS average }

end Calculator

/-! ## routes-data.js: the RoutesDB object -/

/-- One stored route. -/
structure Route where
  origin : String
  destination : String
  distanceKM : ℚ
deriving DecidableEq

namespace RoutesDB

/-- The private helper `_normalize`: trim then lower-case. -/
def _normalize (s : String) : String := jsToLower (jsTrim s)

/-- The hardcoded route table, in source order. -/
def routes : List Route :=
  [⟨"São Paulo, SP", "Rio de Janeiro, RJ", 430⟩,
   ⟨"São Paulo, SP", "Brasília, DF", 1015⟩,
   ⟨"Rio de Janeiro, RJ", "Brasília, DF", 1148⟩,
   ⟨"São Paulo, SP", "Campinas, SP", 95⟩,
   ⟨"Rio de Janeiro, RJ", "Niterói, RJ", 13⟩,
   ⟨"Belo Horizonte, MG", "Ouro Preto, MG", 100⟩,
   ⟨"Porto Alegre, RS", "Florianópolis, SC", 460⟩,
   ⟨"Porto Alegre, RS", "Curitiba, PR", 710⟩,
   ⟨"Curitiba, PR", "Florianópolis, SC", 300⟩,
   ⟨"Salvador, BA", "Feira de Santana, BA", 100⟩,
   ⟨"Salvador, BA", "Recife, PE", 800⟩,
   ⟨"Recife, PE", "João Pessoa, PB", 120⟩,
   ⟨"Fortaleza, CE", "Natal, RN", 530⟩,
   ⟨"Fortaleza, CE", "São Luís, MA", 870⟩,
   ⟨"Manaus, AM", "Belém, PA", 1740⟩,
   ⟨"Belém, PA", "Macapá, AP", 520⟩,
   ⟨"Goiânia, GO", "Brasília, DF", 200⟩,
   ⟨"Goiânia, GO", "Uberlândia, MG", 450⟩,
   ⟨"Uberlândia, MG", "Ribeirão Preto, SP", 320⟩,
   ⟨"Ribeirão Preto, SP", "São José do Rio Preto, SP", 220⟩,
   ⟨"Maceió, AL", "Aracaju, SE", 270⟩,
   ⟨"Teresina, PI", "São Luís, MA", 320⟩,
   ⟨"Campo Grande, MS", "Cuiabá, MT", 700⟩,
   ⟨"Cuiabá, MT", "Porto Velho, RO", 780⟩,
   ⟨"Belém, PA", "Manaus, AM", 1740⟩,
   ⟨"Belo Horizonte, MG", "Rio de Janeiro, RJ", 440⟩,
   ⟨"Belo Horizonte, MG", "São Paulo, SP", 586⟩,
   ⟨"Porto Alegre, RS", "São Paulo, SP", 1120⟩,
   ⟨"Recife, PE", "Fortaleza, CE", 815⟩,
   ⟨"São Paulo, SP", "Santos, SP", 75⟩,
   ⟨"Campina Grande, PB", "João Pessoa, PB", 120⟩,
   ⟨"Natal, RN", "Fortaleza, CE", 535⟩,
   ⟨"Caxias do Sul, RS", "Porto Alegre, RS", 130⟩,
   ⟨"Vitória, ES", "Belo Horizonte, MG", 520⟩,
   ⟨"Campos dos Goytacazes, RJ", "Rio de Janeiro, RJ", 280⟩,
   ⟨"Petrolina, PE", "Juazeiro, BA", 10⟩]

/-- The `for` loop of `findDistance`: first route whose normalized endpoints
match the normalized query in either direction. -/
def findDistanceLoop (oNorm dNorm : String) : List Route → Option ℚ
  | [] => none
  | r :: rs =>
    if _normalize r.origin = oNorm ∧ _normalize r.destination = dNorm then
      some r.distanceKM
    else if _normalize r.origin = dNorm ∧ _normalize r.destination = oNorm then
      some r.distanceKM
    else findDistanceLoop oNorm dNorm rs

/-- `RoutesDB.findDistance(origin, destination)`: `null` when either argument
is falsy (the empty string) or no stored route matches in either direction. -/
def findDistance (origin destination : String) : Option ℚ :=
  if origin = "" ∨ destination = "" then none
  else findDistanceLoop (_normalize origin) (_normalize destination) routes

end RoutesDB

/-! ## Derived definitions used to state and prove the claims -/

/-- The divisor `calculateAllModes` ends up using for the percentage column on
a finite non-negative distance `q`: the rounded car emission, with the `0.001`
epsilon substituted when that emission is exactly 0. -/
def carDiv (q : ℚ) : ℚ :=
  if round2 (q * 0.12) = 0 then 0.001 else round2 (q * 0.12)

/-- The entry `calculateAllModes` builds for a mode with factor `f` on a
finite non-negative distance `q`, before sorting. -/
def entryFor (q : ℚ) (mode : String) (f : ℚ) : Calculator.ModeEntry :=
  { mode := mode,
    emission := JSNum.fin (round2 (q * f)),
    percentageVsCar := JSNum.fin (round2 (round2 (q * f) / carDiv q * 100)) }

/-- The pre-sort results array of `calculateAllModes` on a finite non-negative
distance `q`, in factor-table iteration order. -/
def modesList (q : ℚ) : List Calculator.ModeEntry :=
  [entryFor q "bicicleta" 0, entryFor q "carro" 0.12,
   entryFor q "onibus" 0.089, entryFor q "caminhao" 0.96]

/-- Position of an entry's mode in the factor table's iteration order. -/
def modeIdx (m : Calculator.ModeEntry) : ℕ :=
  (CONFIG.EMISSION_FACTORS.map Prod.fst).indexOf m.mode

/-- Sorted-ascending-with-stable-ties, entrywise: the left entry's emission is
no larger, and on a tie the left entry's mode comes first in the factor
table's iteration order. -/
def entryBelow (a b : Calculator.ModeEntry) : Prop :=
  a.emission.toQ ≤ b.emission.toQ ∧
    (a.emission.toQ = b.emission.toQ → modeIdx a < modeIdx b)

/-- A stored route matches the (normalized) query pair in either direction. -/
def routeMatches (r : Route) (a b : String) : Prop :=
  (RoutesDB._normalize r.origin = RoutesDB._normalize a ∧
    RoutesDB._normalize r.destination = RoutesDB._normalize b) ∨
  (RoutesDB._normalize r.origin = RoutesDB._normalize b ∧
    RoutesDB._normalize r.destination = RoutesDB._normalize a)

instance (r : Route) (a b : String) : Decidable (routeMatches r a b) := by
  unfold routeMatches; infer_instance

/-- The public boundary values whose numeric part is finite: a non-number
value, or a number that is neither NaN nor infinite. -/
def finiteOrNonNumber (v : Option JSNum) : Bool :=
  match v with
  | none => true
  | some n => n.isFinite

/-! ## Helper lemmas -/

namespace JSNum

theorem ltZero_fin_false {q : ℚ} (h : 0 ≤ q) : (fin q).ltZero = false := by
  simp [ltZero, not_lt.2 h]

theorem ltZero_fin_true {q : ℚ} (h : q < 0) : (fin q).ltZero = true := by
  simp [ltZero, h]

theorem fin_mul_fin (a b : ℚ) : (fin a).mul (fin b) = fin (a * b) := rfl

theorem fin_div_fin {b : ℚ} (a : ℚ) (h : b ≠ 0) :
    (fin a).div (fin b) = fin (a / b) := by
  simp [div, h]

theorem fin_sub_fin (a b : ℚ) : (fin a).sub (fin b) = fin (a - b) := rfl

theorem fin_add_fin (a b : ℚ) : (fin a).add (fin b) = fin (a + b) := rfl

theorem sub_ltZero_of_finite {u v : JSNum} (hu : u.isFinite = true)
    (hv : v.isFinite = true) : ((u.sub v).ltZero = true ↔ u.toQ < v.toQ) := by
  cases u with
  | fin a =>
    cases v with
    | fin b => simp [sub, ltZero, toQ, sub_neg]
    | nan => simp [isFinite] at hv
    | posInf => simp [isFinite] at hv
    | negInf => simp [isFinite] at hv
  | nan => simp [isFinite] at hu
  | posInf => simp [isFinite] at hu
  | negInf => simp [isFinite] at hu

end JSNum

theorem round2JS_fin (q : ℚ) : round2JS (JSNum.fin q) = JSNum.fin (round2 q) := by
  have h100 : ((100 : ℚ)) ≠ 0 := by norm_num
  simp [round2JS, JSNum.fin_mul_fin, Math.round, JSNum.fin_div_fin _ h100, round2]

theorem round4JS_fin (q : ℚ) : round4JS (JSNum.fin q) = JSNum.fin (round4 q) := by
  have h : ((10000 : ℚ)) ≠ 0 := by norm_num
  simp [round4JS, JSNum.fin_mul_fin, Math.round, JSNum.fin_div_fin _ h, round4]

theorem round2_nonneg {q : ℚ} (h : 0 ≤ q) : 0 ≤ round2 q := by
  unfold round2
  have : (0 : ℤ) ≤ ⌊q * 100 + 1/2⌋ := by
    apply Int.floor_nonneg.2
    positivity
  positivity

theorem round2_zero : round2 0 = 0 := by
  unfold round2
  norm_num

theorem round2_one_hundred : round2 100 = 100 := by
  unfold round2
  norm_num

namespace Calculator

theorem normalize_bicicleta : jsToLower (jsTrim "bicicleta") = "bicicleta" := by decide

theorem normalize_carro : jsToLower (jsTrim "carro") = "carro" := by decide

theorem normalize_onibus : jsToLower (jsTrim "onibus") = "onibus" := by decide

theorem normalize_caminhao : jsToLower (jsTrim "caminhao") = "caminhao" := by decide

theorem factorOf_bicicleta : factorOf "bicicleta" = some 0 := by decide

theorem factorOf_carro : factorOf "carro" = some 0.12 := by
  with_unfolding_all decide

theorem factorOf_onibus : factorOf "onibus" = some 0.089 := by
  with_unfolding_all decide

theorem factorOf_caminhao : factorOf "caminhao" = some 0.96 := by
  with_unfolding_all decide

theorem calculateEmission_none (m : String) : calculateEmission none m = JSNum.fin 0 := rfl

theorem calculateEmission_ltZero {d : JSNum} (h : d.ltZero = true) (m : String) :
    calculateEmission (some d) m = JSNum.fin 0 := by
  simp [calculateEmission, h]

theorem calculateEmission_notFound {d : JSNum} (h : d.ltZero = false) {m : String}
    (hm : factorOf (jsToLower (jsTrim m)) = none) :
    calculateEmission (some d) m = JSNum.fin 0 := by
  simp [calculateEmission, h, hm]

theorem calculateEmission_found {d : JSNum} (h : d.ltZero = false) {m : String} {f : ℚ}
    (hm : factorOf (jsToLower (jsTrim m)) = some f) :
    calculateEmission (some d) m = round2JS (d.mul (JSNum.fin f)) := by
  simp [calculateEmission, h, hm]

theorem calculateEmission_fin {q : ℚ} (h : 0 ≤ q) {m : String} {f : ℚ}
    (hm : factorOf (jsToLower (jsTrim m)) = some f) :
    calculateEmission (some (JSNum.fin q)) m = JSNum.fin (round2 (q * f)) := by
  rw [calculateEmission_found (JSNum.ltZero_fin_false h) hm, JSNum.fin_mul_fin, round2JS_fin]

end Calculator

namespace Calculator

theorem sortInsert_perm (x : ModeEntry) (l : List ModeEntry) :
    (sortInsert x l).Perm (x :: l) := by
  induction l with
  | nil => exact List.Perm.refl _
  | cons y ys ih =>
    by_cases h : (JSNum.sub y.emission x.emission).ltZero = true
    · simp only [sortInsert, h, if_true]
      exact (ih.cons y).trans (List.Perm.swap x y ys)
    · simp [sortInsert, h]

theorem sortByEmission_perm (l : List ModeEntry) : (sortByEmission l).Perm l := by
  induction l with
  | nil => exact List.Perm.refl _
  | cons x xs ih => exact (sortInsert_perm x (sortByEmission xs)).trans (ih.cons x)

theorem sortInsert_pairwise {x : ModeEntry} {l : List ModeEntry}
    (hfx : x.emission.isFinite = true) (hfl : ∀ m ∈ l, m.emission.isFinite = true)
    (hidx : ∀ m ∈ l, modeIdx x < modeIdx m)
    (hl : List.Pairwise entryBelow l) :
    List.Pairwise entryBelow (sortInsert x l) := by
  induction l with
  | nil => simp [sortInsert]
  | cons y ys ih =>
    have hfy : y.emission.isFinite = true := hfl y (by simp)
    have hfys : ∀ m ∈ ys, m.emission.isFinite = true := fun m hm => hfl m (by simp [hm])
    have hidxys : ∀ m ∈ ys, modeIdx x < modeIdx m := fun m hm => hidx m (by simp [hm])
    rcases List.pairwise_cons.1 hl with ⟨hy, hys⟩
    by_cases h : (JSNum.sub y.emission x.emission).ltZero = true
    · have hlt : y.emission.toQ < x.emission.toQ :=
        (JSNum.sub_ltZero_of_finite hfy hfx).1 h
      simp only [sortInsert, h, if_true]
      refine List.pairwise_cons.2 ⟨?_, ih hfys hidxys hys⟩
      intro z hz
      have hz' : z = x ∨ z ∈ ys := by
        have := (sortInsert_perm x ys).mem_iff.1 hz
        simpa using this
      rcases hz' with rfl | hz'
      · exact ⟨le_of_lt hlt, fun he => absurd he (ne_of_lt hlt)⟩
      · exact hy z hz'
    · have hle : x.emission.toQ ≤ y.emission.toQ :=
        le_of_not_lt (fun hc => h ((JSNum.sub_ltZero_of_finite hfy hfx).2 hc))
      simp only [sortInsert, h, if_false]
      refine List.pairwise_cons.2 ⟨?_, hl⟩
      intro z hz
      rcases List.mem_cons.1 hz with rfl | hz'
      · exact ⟨hle, fun _ => hidx z (by simp)⟩
      · have h1 : entryBelow y z := hy z hz'
        exact ⟨hle.trans h1.1, fun _ => hidx z (by simp [hz'])⟩

theorem sortByEmission_pairwise {l : List ModeEntry}
    (hf : ∀ m ∈ l, m.emission.isFinite = true)
    (hidx : List.Pairwise (fun a b => modeIdx a < modeIdx b) l) :
    List.Pairwise entryBelow (sortByEmission l) := by
  induction l with
  | nil => simp [sortByEmission]
  | cons x xs ih =>
    rcases List.pairwise_cons.1 hidx with ⟨hx, hxs⟩
    have hfx : x.emission.isFinite = true := hf x (by simp)
    have hfxs : ∀ m ∈ xs, m.emission.isFinite = true := fun m hm => hf m (by simp [hm])
    show List.Pairwise entryBelow (sortInsert x (sortByEmission xs))
    refine sortInsert_pairwise hfx ?_ ?_ (ih hfxs hxs)
    · intro m hm; exact hfxs m ((sortByEmission_perm xs).mem_iff.1 hm)
    · intro m hm; exact hx m ((sortByEmission_perm xs).mem_iff.1 hm)

end Calculator

theorem carDiv_pos {q : ℚ} (h : 0 ≤ q) : 0 < carDiv q := by
  unfold carDiv
  split_ifs with h0
  · norm_num
  · have h1 : (0 : ℚ) ≤ q * 0.12 := by positivity
    exact lt_of_le_of_ne (round2_nonneg h1) (Ne.symm h0)

theorem calculateAllModes_eq {q : ℚ} (h : 0 ≤ q) :
    Calculator.calculateAllModes (some (JSNum.fin q)) =
      Calculator.sortByEmission (modesList q) := by
  have hC : carDiv q ≠ 0 := ne_of_gt (carDiv_pos h)
  have hb : Calculator.calculateEmission (some (JSNum.fin q)) "bicicleta" =
      JSNum.fin (round2 (q * 0)) :=
    Calculator.calculateEmission_fin h
      (by rw [Calculator.normalize_bicicleta]; exact Calculator.factorOf_bicicleta)
  have hc : Calculator.calculateEmission (some (JSNum.fin q)) "carro" =
      JSNum.fin (round2 (q * 0.12)) :=
    Calculator.calculateEmission_fin h
      (by rw [Calculator.normalize_carro]; exact Calculator.factorOf_carro)
  have ho : Calculator.calculateEmission (some (JSNum.fin q)) "onibus" =
      JSNum.fin (round2 (q * 0.089)) :=
    Calculator.calculateEmission_fin h
      (by rw [Calculator.normalize_onibus]; exact Calculator.factorOf_onibus)
  have ht : Calculator.calculateEmission (some (JSNum.fin q)) "caminhao" =
      JSNum.fin (round2 (q * 0.96)) :=
    Calculator.calculateEmission_fin h
      (by rw [Calculator.normalize_caminhao]; exact Calculator.factorOf_caminhao)
  have hce : (if (JSNum.fin (round2 (q * 0.12))).eqZero then JSNum.fin 0.001
      else JSNum.fin (round2 (q * 0.12))) = JSNum.fin (carDiv q) := by
    unfold carDiv
    by_cases h0 : round2 (q * 0.12) = 0 <;> simp [JSNum.eqZero, h0]
  simp only [Calculator.calculateAllModes, JSNum.ltZero_fin_false h, Bool.false_eq_true,
    if_false, CONFIG.EMISSION_FACTORS, List.map_cons, List.map_nil, hb, hc, ho, ht, hce]
  simp only [JSNum.fin_div_fin _ hC, JSNum.fin_mul_fin, round2JS_fin]
  simp [modesList, entryFor]

namespace RoutesDB

theorem _normalize_empty : _normalize "" = "" := rfl

theorem findDistanceLoop_symm (a b : String) (rs : List Route) :
    findDistanceLoop a b rs = findDistanceLoop b a rs := by
  induction rs with
  | nil => rfl
  | cons r rs ih =>
    simp only [findDistanceLoop]
    by_cases h1 : _normalize r.origin = a ∧ _normalize r.destination = b <;>
      by_cases h2 : _normalize r.origin = b ∧ _normalize r.destination = a <;>
      simp [h1, h2, ih]

theorem findDistance_symm (a b : String) : findDistance a b = findDistance b a := by
  unfold findDistance
  by_cases h : a = "" ∨ b = ""
  · simp [h, Or.symm h]
  · have h' : ¬(b = "" ∨ a = "") := fun hc => h (Or.symm hc)
    simp only [h, h', if_false]
    exact findDistanceLoop_symm _ _ routes

theorem findDistanceLoop_eq_find? (a b : String) (rs : List Route) :
    findDistanceLoop (_normalize a) (_normalize b) rs =
      Option.map Route.distanceKM (rs.find? (fun r => decide (routeMatches r a b))) := by
  induction rs with
  | nil => rfl
  | cons r rs ih =>
    simp only [findDistanceLoop]
    by_cases h1 : _normalize r.origin = _normalize a ∧
        _normalize r.destination = _normalize b
    · have hm : routeMatches r a b := Or.inl h1
      rw [List.find?_cons_of_pos _ (by simpa [routeMatches] using hm)]
      simp [h1]
    · by_cases h2 : _normalize r.origin = _normalize b ∧
          _normalize r.destination = _normalize a
      · have hm : routeMatches r a b := Or.inr h2
        rw [List.find?_cons_of_pos _ (by simpa [routeMatches] using hm)]
        simp [h1, h2]
      · have hm : ¬ routeMatches r a b := fun hc => hc.elim h1 h2
        rw [List.find?_cons_of_neg _ (by simpa [routeMatches] using hm)]
        simp [h1, h2, ih]

theorem findDistance_eq_find? {a b : String} (ha : a ≠ "") (hb : b ≠ "") :
    findDistance a b = Option.map Route.distanceKM
      (routes.find? (fun r => decide (routeMatches r a b))) := by
  unfold findDistance
  simp only [ha, hb, or_self, if_false, false_or]
  exact findDistanceLoop_eq_find? a b routes

theorem routes_nonBlank :
    ∀ r ∈ routes, _normalize r.origin ≠ "" ∧ _normalize r.destination ≠ "" := by
  decide

theorem findDistance_normCongr {a a' b b' : String} (ha : a ≠ "") (ha' : a' ≠ "")
    (hb : b ≠ "") (hb' : b' ≠ "") (hna : _normalize a = _normalize a')
    (hnb : _normalize b = _normalize b') : findDistance a b = findDistance a' b' := by
  unfold findDistance
  simp [ha, ha', hb, hb', hna, hnb]

theorem findDistance_noMatch {a b : String}
    (h : ∀ r ∈ routes, ¬ routeMatches r a b) : findDistance a b = none := by
  by_cases ha : a = ""
  · simp [findDistance, ha]
  · by_cases hb : b = ""
    · simp [findDistance, hb]
    · have hn : routes.find? (fun r => decide (routeMatches r a b)) = none :=
        List.find?_eq_none.2 (fun r hr => by simpa using h r hr)
      rw [findDistance_eq_find? ha hb, hn]
      rfl

theorem findDistance_blank_left {a b : String} (h : _normalize a = "") :
    findDistance a b = none := by
  apply findDistance_noMatch
  intro r hr hm
  rcases hm with ⟨h1, _⟩ | ⟨_, h2⟩
  · exact (routes_nonBlank r hr).1 (h1.trans h)
  · exact (routes_nonBlank r hr).2 (h2.trans h)

theorem findDistance_blank_right {a b : String} (h : _normalize b = "") :
    findDistance a b = none := by
  apply findDistance_noMatch
  intro r hr hm
  rcases hm with ⟨_, h2⟩ | ⟨h1, _⟩
  · exact (routes_nonBlank r hr).2 (h2.trans h)
  · exact (routes_nonBlank r hr).1 (h1.trans h)

theorem findDistance_uniqueMatch {a b : String} {r : Route} (hr : r ∈ routes)
    (hm : routeMatches r a b) (huniq : ∀ x ∈ routes, routeMatches x a b → x = r) :
    findDistance a b = some r.distanceKM := by
  have ha : a ≠ "" := by
    intro hc
    subst hc
    rcases hm with ⟨h1, _⟩ | ⟨_, h2⟩
    · exact (routes_nonBlank r hr).1 (h1.trans _normalize_empty)
    · exact (routes_nonBlank r hr).2 (h2.trans _normalize_empty)
  have hb : b ≠ "" := by
    intro hc
    subst hc
    rcases hm with ⟨_, h2⟩ | ⟨h1, _⟩
    · exact (routes_nonBlank r hr).2 (h2.trans _normalize_empty)
    · exact (routes_nonBlank r hr).1 (h1.trans _normalize_empty)
  rw [findDistance_eq_find? ha hb]
  cases hf : routes.find? (fun x => decide (routeMatches x a b)) with
  | none =>
    exfalso
    have := List.find?_eq_none.1 hf r hr
    simp [hm] at this
  | some r0 =>
    have hp := List.find?_some hf
    have hmem := List.mem_of_find?_eq_some hf
    have hr0 : r0 = r := huniq r0 hmem (by simpa using hp)
    subst hr0
    rfl

end RoutesDB

namespace Calculator

theorem clamp_fin (x : ℚ) :
    (if (JSNum.fin x).ltZero = true then JSNum.fin 0 else JSNum.fin x) =
      JSNum.fin (max 0 x) := by
  by_cases hx : x < 0
  · simp [JSNum.ltZero, hx, max_eq_left (le_of_lt hx)]
  · simp [JSNum.ltZero, hx, max_eq_right (le_of_not_lt hx)]

theorem calculateSavings_eq (e b : ℚ) :
    calculateSavings (some (JSNum.fin e)) (some (JSNum.fin b)) =
      { savedKg := JSNum.fin (round2 (max 0 (max 0 b - max 0 e))),
        percentage := JSNum.fin (round2
          (if 0 < max 0 b then max 0 (max 0 b - max 0 e) / max 0 b * 100 else 0)) } := by
  unfold calculateSavings
  simp only [clamp_fin, JSNum.fin_sub_fin, clamp_fin]
  by_cases hb0 : 0 < max 0 b
  · have hbne : max 0 b ≠ 0 := ne_of_gt hb0
    have hg : (JSNum.fin (max 0 b)).gtZero = true := by simp [JSNum.gtZero, hb0]
    simp only [hg, if_true, JSNum.fin_div_fin _ hbne, JSNum.fin_mul_fin, round2JS_fin,
      if_pos hb0]
  · have hg : (JSNum.fin (max 0 b)).gtZero = false := by simp [JSNum.gtZero, hb0]
    simp only [hg, Bool.false_eq_true, if_false, round2JS_fin, if_neg hb0]

theorem calculateSavings_none_left (w : Option JSNum) :
    calculateSavings none w = calculateSavings (some (JSNum.fin 0)) w := by
  unfold calculateSavings
  simp

theorem calculateSavings_none_right (v : Option JSNum) :
    calculateSavings v none = calculateSavings v (some (JSNum.fin 0)) := by
  unfold calculateSavings
  simp

theorem calculateCarbonCredits_fin (e : ℚ) :
    calculateCarbonCredits (some (JSNum.fin e)) =
      JSNum.fin (if 0 ≤ e then round4 (e / CONFIG.KG_PER_CREDIT) else 0) := by
  unfold calculateCarbonCredits
  by_cases he : 0 ≤ e
  · have hk : CONFIG.KG_PER_CREDIT ≠ 0 := by norm_num [CONFIG.KG_PER_CREDIT]
    simp only [JSNum.ltZero_fin_false he, Bool.false_eq_true, if_false,
      JSNum.fin_div_fin _ hk, round4JS_fin, if_pos he]
  · simp only [JSNum.ltZero_fin_true (not_le.1 he), if_true, if_neg he]

theorem estimateCreditPrice_fin (c : ℚ) :
    estimateCreditPrice (some (JSNum.fin c)) =
      (if 0 ≤ c then
        { min := JSNum.fin (round2 (c * CONFIG.PRICE_MIN_BRL)),
          max := JSNum.fin (round2 (c * CONFIG.PRICE_MAX_BRL)),
          average := JSNum.fin (round2
            ((c * CONFIG.PRICE_MIN_BRL + c * CONFIG.PRICE_MAX_BRL) / 2)) }
       else { min := JSNum.fin 0, max := JSNum.fin 0, average := JSNum.fin 0 }) := by
  unfold estimateCreditPrice
  by_cases hc : 0 ≤ c
  · have h2 : (2 : ℚ) ≠ 0 := by norm_num
    simp only [JSNum.ltZero_fin_false hc, Bool.false_eq_true, if_false,
      JSNum.fin_mul_fin, JSNum.fin_add_fin, JSNum.fin_div_fin _ h2, round2JS_fin,
      if_pos hc]
  · simp only [JSNum.ltZero_fin_true (not_le.1 hc), if_true, if_neg hc]

theorem calculateEmission_eq (q : ℚ) (mode : String) :
    calculateEmission (some (JSNum.fin q)) mode =
      (if 0 ≤ q then
        (match factorOf (jsToLower (jsTrim mode)) with
         | some f => JSNum.fin (round2 (q * f))
         | none => JSNum.fin 0)
       else JSNum.fin 0) := by
  by_cases hq : 0 ≤ q
  · cases hf : factorOf (jsToLower (jsTrim mode)) with
    | none => rw [calculateEmission_notFound (JSNum.ltZero_fin_false hq) hf]; simp [hq, hf]
    | some f => rw [calculateEmission_fin hq hf]; simp [hq, hf]
  · rw [calculateEmission_ltZero (JSNum.ltZero_fin_true (not_le.1 hq)) mode, if_neg hq]

theorem modesList_finite (q : ℚ) :
    ∀ m ∈ modesList q, m.emission.isFinite = true := by
  intro m hm
  simp only [modesList, List.mem_cons, List.not_mem_nil, or_false] at hm
  rcases hm with rfl | rfl | rfl | rfl <;> rfl

theorem modesList_idx (q : ℚ) :
    List.Pairwise (fun a b => modeIdx a < modeIdx b) (modesList q) := by
  have h0 : modeIdx (entryFor q "bicicleta" 0) = 0 := rfl
  have h1 : modeIdx (entryFor q "carro" 0.12) = 1 := rfl
  have h2 : modeIdx (entryFor q "onibus" 0.089) = 2 := rfl
  have h3 : modeIdx (entryFor q "caminhao" 0.96) = 3 := rfl
  simp [modesList, List.pairwise_cons, h0, h1, h2, h3]

end Calculator

/-! ## The claims -/

/-- C3: `findDistance` is symmetric: for every pair of strings A, B,
`findDistance(A, B) = findDistance(B, A)` — over the stored route list as it
is, which contains the reverse-duplicate pair Fortaleza↔Natal with the
conflicting distances 530 and 535; both query directions of that pair get the
same first-match answer, 530. -/
theorem C3_findDistance_symmetric :
    (∀ a b : String, RoutesDB.findDistance a b = RoutesDB.findDistance b a) ∧
    (⟨"Fortaleza, CE", "Natal, RN", 530⟩ : Route) ∈ RoutesDB.routes ∧
    (⟨"Natal, RN", "Fortaleza, CE", 535⟩ : Route) ∈ RoutesDB.routes ∧
    RoutesDB.findDistance "Fortaleza, CE" "Natal, RN" = some 530 ∧
    RoutesDB.findDistance "Natal, RN" "Fortaleza, CE" = some 530 :=
  ⟨RoutesDB.findDistance_symm, by decide, by decide,
   by with_unfolding_all decide, by with_unfolding_all decide⟩

/-- C4: `calculateEmission(100, ·)` on the car mode — stored in the factor
table under the key "carro" with factor 0.12 — returns 12.00, and on the
bicycle mode — key "bicicleta", factor 0 — returns 0. -/
theorem C4_calculateEmission_car_bicycle_100 :
    Calculator.factorOf "carro" = some 0.12 ∧
    Calculator.calculateEmission (some (JSNum.fin 100)) "carro" = JSNum.fin 12 ∧
    Calculator.factorOf "bicicleta" = some 0 ∧
    Calculator.calculateEmission (some (JSNum.fin 100)) "bicicleta" = JSNum.fin 0 :=
  ⟨Calculator.factorOf_carro, by with_unfolding_all decide,
   Calculator.factorOf_bicicleta, by with_unfolding_all decide⟩

/-- C5: for a finite distance `q` and any mode string, `calculateEmission`
returns `q × factor` rounded half-up to 2 decimal places when `q ≥ 0` and the
trimmed, lower-cased mode is a factor-table key; it returns 0 — raising no
error — when the distance is negative or not a number, or the normalized mode
is absent; in particular distance 0 gives 0 for every mode and distance -5
gives 0. -/
theorem C5_calculateEmission_contract (q : ℚ) (mode : String) :
    Calculator.calculateEmission (some (JSNum.fin q)) mode =
      (if 0 ≤ q then
        (match Calculator.factorOf (jsToLower (jsTrim mode)) with
         | some f => JSNum.fin (round2 (q * f))
         | none => JSNum.fin 0)
       else JSNum.fin 0) ∧
    Calculator.calculateEmission none mode = JSNum.fin 0 ∧
    Calculator.calculateEmission (some (JSNum.fin 0)) mode = JSNum.fin 0 ∧
    Calculator.calculateEmission (some (JSNum.fin (-5))) mode = JSNum.fin 0 := by
  refine ⟨Calculator.calculateEmission_eq q mode, rfl, ?_, ?_⟩
  · rw [Calculator.calculateEmission_eq 0 mode]
    cases hf : Calculator.factorOf (jsToLower (jsTrim mode)) with
    | none => simp [hf]
    | some f => simp [hf, round2_zero]
  · rw [Calculator.calculateEmission_eq (-5) mode]
    norm_num

/-- C7: `calculateSavings` first clamps negative or non-number inputs to 0,
then returns `savedKg = max(0, baseline - emission)` and
`percentage = savedKg / baseline × 100` when the baseline is positive (else
0), both rounded to 2 decimal places — never a negative value; in particular
`calculateSavings(15, 12)` returns `{savedKg: 0, percentage: 0}`. -/
theorem C7_calculateSavings_contract (e b : ℚ) :
    Calculator.calculateSavings (some (JSNum.fin e)) (some (JSNum.fin b)) =
      { savedKg := JSNum.fin (round2 (max 0 (max 0 b - max 0 e))),
        percentage := JSNum.fin (round2
          (if 0 < max 0 b then max 0 (max 0 b - max 0 e) / max 0 b * 100 else 0)) } ∧
    Calculator.calculateSavings none (some (JSNum.fin b)) =
      Calculator.calculateSavings (some (JSNum.fin 0)) (some (JSNum.fin b)) ∧
    Calculator.calculateSavings (some (JSNum.fin e)) none =
      Calculator.calculateSavings (some (JSNum.fin e)) (some (JSNum.fin 0)) ∧
    Calculator.calculateSavings (some (JSNum.fin 15)) (some (JSNum.fin 12)) =
      { savedKg := JSNum.fin 0, percentage := JSNum.fin 0 } :=
  ⟨Calculator.calculateSavings_eq e b,
   Calculator.calculateSavings_none_left (some (JSNum.fin b)),
   Calculator.calculateSavings_none_right (some (JSNum.fin e)),
   by with_unfolding_all decide⟩

/-- C8: `calculateCarbonCredits` divides a non-negative emission by
`KG_PER_CREDIT` and rounds to 4 decimal places (0 for negative or non-number
input, never an error); `estimateCreditPrice` returns credits × min price,
credits × max price and their midpoint, each rounded to 2 decimals (all-zero
for negative or non-number input); with `KG_PER_CREDIT = 1000` and prices
50/150, 1000 kg is 1.0000 credit and 1 credit is priced min 50, max 150,
average 100. -/
theorem C8_credits_and_price_contract (e c : ℚ) :
    Calculator.calculateCarbonCredits (some (JSNum.fin e)) =
      JSNum.fin (if 0 ≤ e then round4 (e / CONFIG.KG_PER_CREDIT) else 0) ∧
    Calculator.calculateCarbonCredits none = JSNum.fin 0 ∧
    Calculator.estimateCreditPrice (some (JSNum.fin c)) =
      (if 0 ≤ c then
        { min := JSNum.fin (round2 (c * CONFIG.PRICE_MIN_BRL)),
          max := JSNum.fin (round2 (c * CONFIG.PRICE_MAX_BRL)),
          average := JSNum.fin (round2
            ((c * CONFIG.PRICE_MIN_BRL + c * CONFIG.PRICE_MAX_BRL) / 2)) }
       else { min := JSNum.fin 0, max := JSNum.fin 0, average := JSNum.fin 0 }) ∧
    Calculator.estimateCreditPrice none =
      { min := JSNum.fin 0, max := JSNum.fin 0, average := JSNum.fin 0 } ∧
    Calculator.calculateCarbonCredits (some (JSNum.fin 1000)) = JSNum.fin 1 ∧
    Calculator.estimateCreditPrice (some (JSNum.fin 1)) =
      { min := JSNum.fin 50, max := JSNum.fin 150, average := JSNum.fin 100 } :=
  ⟨Calculator.calculateCarbonCredits_fin e, rfl, Calculator.estimateCreditPrice_fin c, rfl,
   by with_unfolding_all decide, by with_unfolding_all decide⟩

/-- C10: `calculateAllModes` returns the empty array exactly for the inputs
its guard rejects: a value that is not of number type, or a number that
compares `< 0` under JavaScript comparison (NaN compares false, so NaN is
accepted and produces entries); otherwise the result has one entry per mode
and is never a list of zero entries. -/
theorem C10_calculateAllModes_empty_iff (v : Option JSNum) :
    Calculator.calculateAllModes v = [] ↔
      (v = none ∨ ∃ n : JSNum, v = some n ∧ n.ltZero = true) := by
  cases v with
  | none => simp [Calculator.calculateAllModes]
  | some n =>
    by_cases h : n.ltZero = true
    · simp [Calculator.calculateAllModes, h]
    · have hlen : (Calculator.calculateAllModes (some n)).length = 4 := by
        simp only [Calculator.calculateAllModes, h, Bool.false_eq_true, if_false]
        rw [(Calculator.sortByEmission_perm _).length_eq]
        simp [CONFIG.EMISSION_FACTORS]
      constructor
      · intro he
        rw [he] at hlen
        simp at hlen
      · rintro (hc | ⟨m, hm, hlt⟩)
        · cases hc
        · cases hm
          exact absurd hlt h

/-- C9: on every finite non-negative distance, each entry of
`calculateAllModes` has `percentageVsCar = round2(emission ÷ carDiv × 100)`,
where `carDiv` is the rounded car emission with the 0.001 epsilon substituted
exactly when that emission is 0; the divisor is strictly positive — so the
computation never divides by zero — and every `percentageVsCar` is a finite
number, never infinity or NaN. -/
theorem C9_percentageVsCar_guarded (q : ℚ) (h : 0 ≤ q) :
    0 < carDiv q ∧
    ((Calculator.calculateAllModes (some (JSNum.fin q))).all (fun m =>
      decide (m.percentageVsCar =
        JSNum.fin (round2 (m.emission.toQ / carDiv q * 100))) &&
      m.percentageVsCar.isFinite)) = true := by
  refine ⟨carDiv_pos h, ?_⟩
  rw [List.all_eq_true]
  intro m hm
  rw [calculateAllModes_eq h] at hm
  have hm' : m ∈ modesList q := (Calculator.sortByEmission_perm _).mem_iff.1 hm
  simp only [modesList, List.mem_cons, List.not_mem_nil, or_false] at hm'
  rcases hm' with rfl | rfl | rfl | rfl <;>
    simp [entryFor, JSNum.toQ, JSNum.isFinite]

/-- Witness for C9 at distance 100. -/
theorem C9_percentageVsCar_guarded_witness :
    0 < carDiv 100 ∧
    ((Calculator.calculateAllModes (some (JSNum.fin 100))).all (fun m =>
      decide (m.percentageVsCar =
        JSNum.fin (round2 (m.emission.toQ / carDiv 100 * 100))) &&
      m.percentageVsCar.isFinite)) = true :=
  C9_percentageVsCar_guarded 100 (by norm_num)

/-- C1 counterexample: at the non-negative distance 0 the entry for the car
mode is `{mode: "carro", emission: 0, percentageVsCar: 0}` — its
`percentageVsCar` is 0, not 100: the rounded car emission is 0, the 0.001
guard divisor is substituted, and 0 ÷ 0.001 × 100 = 0. -/
theorem C1_counterexample_carPct_at_zero :
    (Calculator.calculateAllModes (some (JSNum.fin 0))).find?
        (fun m => m.mode == "carro") =
      some { mode := "carro", emission := JSNum.fin 0, percentageVsCar := JSNum.fin 0 } ∧
    JSNum.fin (0 : ℚ) ≠ JSNum.fin 100 := by
  have hlist : Calculator.calculateAllModes (some (JSNum.fin 0)) =
      [{ mode := "bicicleta", emission := JSNum.fin 0, percentageVsCar := JSNum.fin 0 },
       { mode := "carro", emission := JSNum.fin 0, percentageVsCar := JSNum.fin 0 },
       { mode := "onibus", emission := JSNum.fin 0, percentageVsCar := JSNum.fin 0 },
       { mode := "caminhao", emission := JSNum.fin 0, percentageVsCar := JSNum.fin 0 }] := by
    rw [calculateAllModes_eq le_rfl]
    have hent : ∀ (s : String) (f : ℚ), entryFor 0 s f =
        { mode := s, emission := JSNum.fin 0, percentageVsCar := JSNum.fin 0 } := by
      intro s f
      unfold entryFor carDiv
      norm_num [round2_zero]
    simp only [modesList, hent]
    simp [Calculator.sortByEmission, Calculator.sortInsert, JSNum.sub, JSNum.ltZero]
  rw [hlist]
  constructor
  · simp [List.find?]
  · simp

/-- C1 amended: for every finite non-negative distance d, calculateAllModes(d)
returns exactly one entry per factor-table mode (its modes are a permutation
of the table's keys), sorted in ascending order of the emission field with
ties kept in the factor table's original iteration order (stable sort); and
the entry for the car mode has percentageVsCar = 100 whenever the rounded car
emission is nonzero — when that emission rounds to 0 (e.g. at d = 0) the
0.001 guard divisor makes the car entry's own percentage 0 instead of 100. -/
theorem C1_allModes_sorted_stable (q : ℚ) (h : 0 ≤ q) :
    ((Calculator.calculateAllModes (some (JSNum.fin q))).map
        Calculator.ModeEntry.mode).Perm (CONFIG.EMISSION_FACTORS.map Prod.fst) ∧
    List.Pairwise entryBelow (Calculator.calculateAllModes (some (JSNum.fin q))) ∧
    (round2 (q * 0.12) ≠ 0 →
      ((Calculator.calculateAllModes (some (JSNum.fin q))).filter
          (fun m => m.mode == "carro")).all
        (fun m => m.percentageVsCar == JSNum.fin 100) = true) := by
  refine ⟨?_, ?_, ?_⟩
  · rw [calculateAllModes_eq h]
    have hp := (Calculator.sortByEmission_perm (modesList q)).map Calculator.ModeEntry.mode
    simpa [modesList, entryFor, CONFIG.EMISSION_FACTORS] using hp
  · rw [calculateAllModes_eq h]
    exact Calculator.sortByEmission_pairwise (Calculator.modesList_finite q)
      (Calculator.modesList_idx q)
  · intro hne
    rw [List.all_eq_true]
    intro m hm
    rw [List.mem_filter] at hm
    obtain ⟨hmem, hmode⟩ := hm
    rw [calculateAllModes_eq h] at hmem
    have hm' : m ∈ modesList q := (Calculator.sortByEmission_perm _).mem_iff.1 hmem
    have hmode' : m.mode = "carro" := by simpa using hmode
    have hcd : carDiv q = round2 (q * 0.12) := by unfold carDiv; exact if_neg hne
    simp only [modesList, List.mem_cons, List.not_mem_nil, or_false] at hm'
    rcases hm' with rfl | rfl | rfl | rfl
    · simp [entryFor] at hmode'
    · simp [entryFor, hcd, div_self hne, round2_one_hundred]
    · simp [entryFor] at hmode'
    · simp [entryFor] at hmode'

/-- Witness for C1 (amended) at distance 100. -/
theorem C1_allModes_sorted_stable_witness :
    ((Calculator.calculateAllModes (some (JSNum.fin 100))).map
        Calculator.ModeEntry.mode).Perm (CONFIG.EMISSION_FACTORS.map Prod.fst) ∧
    List.Pairwise entryBelow (Calculator.calculateAllModes (some (JSNum.fin 100))) ∧
    ((Calculator.calculateAllModes (some (JSNum.fin 100))).filter
        (fun m => m.mode == "carro")).all
      (fun m => m.percentageVsCar == JSNum.fin 100) = true := by
  obtain ⟨h1, h2, h3⟩ := C1_allModes_sorted_stable 100 (by norm_num)
  exact ⟨h1, h2, h3 (by norm_num [round2])⟩

/-- C2 counterexample: NaN is accepted at the public boundary (it is of number
type and `NaN < 0` is false, so the guard passes), and it propagates:
`calculateEmission(NaN, "carro")` returns NaN — not a well-formed number and
not the zero sentinel. -/
theorem C2_counterexample_nan_propagates :
    Calculator.calculateEmission (some JSNum.nan) "carro" = JSNum.nan ∧
    JSNum.nan.isFinite = false := by
  refine ⟨?_, rfl⟩
  rw [Calculator.calculateEmission_found (show JSNum.nan.ltZero = false by rfl)
    (by rw [Calculator.normalize_carro]; exact Calculator.factorOf_carro)]
  rfl

/-- C2 amended: restricted to boundary inputs whose numeric arguments are
finite (non-number values still allowed), every numeric field of the result of
all five calculator functions is a finite number — never NaN, never infinite,
never null — with zero the sentinel for not-computable inputs; NaN or infinite
numeric arguments are outside the guarantee, since the `< 0` guard lets NaN
through and it propagates. -/
theorem C2_wellFormed_on_finite_inputs (v w : Option JSNum) (mode : String)
    (hv : finiteOrNonNumber v = true) (hw : finiteOrNonNumber w = true) :
    (Calculator.calculateEmission v mode).isFinite = true ∧
    ((Calculator.calculateAllModes v).all
      (fun m => m.emission.isFinite && m.percentageVsCar.isFinite)) = true ∧
    (Calculator.calculateSavings v w).savedKg.isFinite = true ∧
    (Calculator.calculateSavings v w).percentage.isFinite = true ∧
    (Calculator.calculateCarbonCredits v).isFinite = true ∧
    (Calculator.estimateCreditPrice v).min.isFinite = true ∧
    (Calculator.estimateCreditPrice v).max.isFinite = true ∧
    (Calculator.estimateCreditPrice v).average.isFinite = true := by
  have canon : ∀ u : Option JSNum, finiteOrNonNumber u = true →
      u = none ∨ ∃ q : ℚ, u = some (JSNum.fin q) := by
    intro u hu
    cases u with
    | none => exact Or.inl rfl
    | some n =>
      cases n with
      | fin q => exact Or.inr ⟨q, rfl⟩
      | nan => simp [finiteOrNonNumber, JSNum.isFinite] at hu
      | posInf => simp [finiteOrNonNumber, JSNum.isFinite] at hu
      | negInf => simp [finiteOrNonNumber, JSNum.isFinite] at hu
  have hsav : ∀ e b : ℚ,
      (Calculator.calculateSavings (some (JSNum.fin e))
        (some (JSNum.fin b))).savedKg.isFinite = true ∧
      (Calculator.calculateSavings (some (JSNum.fin e))
        (some (JSNum.fin b))).percentage.isFinite = true := by
    intro e b
    rw [Calculator.calculateSavings_eq]
    exact ⟨rfl, rfl⟩
  have hem : ∀ q : ℚ,
      (Calculator.calculateEmission (some (JSNum.fin q)) mode).isFinite = true := by
    intro q
    rw [Calculator.calculateEmission_eq]
    by_cases hq : 0 ≤ q
    · cases hf : Calculator.factorOf (jsToLower (jsTrim mode)) with
      | none => simp [hq, hf, JSNum.isFinite]
      | some f => simp [hq, hf, JSNum.isFinite]
    · simp [hq, JSNum.isFinite]
  have hall : ∀ q : ℚ, ((Calculator.calculateAllModes (some (JSNum.fin q))).all
      (fun m => m.emission.isFinite && m.percentageVsCar.isFinite)) = true := by
    intro q
    by_cases hq : 0 ≤ q
    · rw [calculateAllModes_eq hq, List.all_eq_true]
      intro m hm
      have hm' : m ∈ modesList q := (Calculator.sortByEmission_perm _).mem_iff.1 hm
      simp only [modesList, List.mem_cons, List.not_mem_nil, or_false] at hm'
      rcases hm' with rfl | rfl | rfl | rfl <;> rfl
    · simp [Calculator.calculateAllModes, JSNum.ltZero_fin_true (not_le.1 hq)]
  have hcr : ∀ q : ℚ,
      (Calculator.calculateCarbonCredits (some (JSNum.fin q))).isFinite = true := by
    intro q
    rw [Calculator.calculateCarbonCredits_fin]
    rfl
  have hpr : ∀ q : ℚ,
      (Calculator.estimateCreditPrice (some (JSNum.fin q))).min.isFinite = true ∧
      (Calculator.estimateCreditPrice (some (JSNum.fin q))).max.isFinite = true ∧
      (Calculator.estimateCreditPrice (some (JSNum.fin q))).average.isFinite = true := by
    intro q
    rw [Calculator.estimateCreditPrice_fin]
    by_cases hq : 0 ≤ q
    · simp [hq, JSNum.isFinite]
    · simp [hq, JSNum.isFinite]
  rcases canon v hv with rfl | ⟨q, rfl⟩ <;> rcases canon w hw with rfl | ⟨p, rfl⟩
  · rw [Calculator.calculateSavings_none_left, Calculator.calculateSavings_none_right]
    exact ⟨rfl, rfl, (hsav 0 0).1, (hsav 0 0).2, rfl, rfl, rfl, rfl⟩
  · rw [Calculator.calculateSavings_none_left]
    exact ⟨rfl, rfl, (hsav 0 p).1, (hsav 0 p).2, rfl, rfl, rfl, rfl⟩
  · rw [Calculator.calculateSavings_none_right]
    exact ⟨hem q, hall q, (hsav q 0).1, (hsav q 0).2, hcr q,
      (hpr q).1, (hpr q).2.1, (hpr q).2.2⟩
  · exact ⟨hem q, hall q, (hsav q p).1, (hsav q p).2, hcr q,
      (hpr q).1, (hpr q).2.1, (hpr q).2.2⟩

/-- Witness for C2 (amended) at emission 5 km, baseline 3 km, mode "carro". -/
theorem C2_wellFormed_on_finite_inputs_witness :
    (Calculator.calculateEmission (some (JSNum.fin 5)) "carro").isFinite = true ∧
    ((Calculator.calculateAllModes (some (JSNum.fin 5))).all
      (fun m => m.emission.isFinite && m.percentageVsCar.isFinite)) = true ∧
    (Calculator.calculateSavings (some (JSNum.fin 5))
      (some (JSNum.fin 3))).savedKg.isFinite = true ∧
    (Calculator.calculateSavings (some (JSNum.fin 5))
      (some (JSNum.fin 3))).percentage.isFinite = true ∧
    (Calculator.calculateCarbonCredits (some (JSNum.fin 5))).isFinite = true ∧
    (Calculator.estimateCreditPrice (some (JSNum.fin 5))).min.isFinite = true ∧
    (Calculator.estimateCreditPrice (some (JSNum.fin 5))).max.isFinite = true ∧
    (Calculator.estimateCreditPrice (some (JSNum.fin 5))).average.isFinite = true :=
  C2_wellFormed_on_finite_inputs (some (JSNum.fin 5)) (some (JSNum.fin 3)) "carro" rfl rfl

/-- C6 counterexample: the stored route (Natal, RN → Fortaleza, CE, 535) does
not answer the query (Natal, Fortaleza) with its own distance 535: an earlier
stored route for the same city pair (Fortaleza → Natal, index 12, distance
530) matches first, so the lookup returns 530 in both directions. -/
theorem C6_counterexample_conflicting_duplicate :
    (⟨"Natal, RN", "Fortaleza, CE", 535⟩ : Route) ∈ RoutesDB.routes ∧
    RoutesDB.findDistance "Natal, RN" "Fortaleza, CE" = some 530 ∧
    some (535 : ℚ) ≠ some (530 : ℚ) :=
  ⟨by decide, by with_unfolding_all decide, by decide⟩

/-- C6 amended: findDistance matches city names case-insensitively after
trimming surrounding whitespace and is direction-agnostic: whenever a stored
route matches the normalized pair in either direction, both query orders
return the distance of the first matching stored route — which is d for a
stored route (A, B, d) whenever it is the unique stored match for that pair,
while a conflicting duplicate is shadowed by the earlier entry. For an empty
or blank argument, or a pair no stored route matches in either direction, it
returns the null sentinel — not zero and not an exception — so it is a total
function from two strings to an optional number. In particular
findDistance(" são paulo, sp ", "RIO DE JANEIRO, RJ") = 430. -/
theorem C6_findDistance_lookup_contract :
    (∀ a b : String, RoutesDB.findDistance a b = RoutesDB.findDistance b a) ∧
    (∀ a b : String, a ≠ "" → b ≠ "" →
      RoutesDB.findDistance a b = Option.map Route.distanceKM
        (RoutesDB.routes.find? (fun r => decide (routeMatches r a b)))) ∧
    (∀ a a' b b' : String, a ≠ "" → a' ≠ "" → b ≠ "" → b' ≠ "" →
      RoutesDB._normalize a = RoutesDB._normalize a' →
      RoutesDB._normalize b = RoutesDB._normalize b' →
      RoutesDB.findDistance a b = RoutesDB.findDistance a' b') ∧
    (∀ b : String, RoutesDB.findDistance "" b = none) ∧
    (∀ a : String, RoutesDB.findDistance a "" = none) ∧
    (∀ a b : String, RoutesDB._normalize a = "" → RoutesDB.findDistance a b = none) ∧
    (∀ a b : String, RoutesDB._normalize b = "" → RoutesDB.findDistance a b = none) ∧
    (∀ a b : String, (∀ r ∈ RoutesDB.routes, ¬ routeMatches r a b) →
      RoutesDB.findDistance a b = none) ∧
    (∀ (a b : String) (r : Route), r ∈ RoutesDB.routes → routeMatches r a b →
      (∀ x ∈ RoutesDB.routes, routeMatches x a b → x = r) →
      RoutesDB.findDistance a b = some r.distanceKM) ∧
    RoutesDB.findDistance " são paulo, sp " "RIO DE JANEIRO, RJ" = some 430 := by
  refine ⟨RoutesDB.findDistance_symm, ?_, ?_, ?_, ?_, ?_, ?_, ?_, ?_, ?_⟩
  · intro a b ha hb
    exact RoutesDB.findDistance_eq_find? ha hb
  · intro a a' b b' ha ha' hb hb' hna hnb
    exact RoutesDB.findDistance_normCongr ha ha' hb hb' hna hnb
  · intro b
    simp [RoutesDB.findDistance]
  · intro a
    simp [RoutesDB.findDistance]
  · intro a b h
    exact RoutesDB.findDistance_blank_left h
  · intro a b h
    exact RoutesDB.findDistance_blank_right h
  · intro a b h
    exact RoutesDB.findDistance_noMatch h
  · intro a b r hr hm hu
    exact RoutesDB.findDistance_uniqueMatch hr hm hu
  · with_unfolding_all decide
